import Mathlib

/-!
Shallow embedding of the eKart order backend (src/server.ts): catalog pricing,
order creation, payment verification and best-effort email notification.
Randomness (order-id draw), the current time and the mail environment are
passed as explicit parameters; the SQLite `orders` table is a list of rows.
-/

namespace EKart

/-- A catalog product (`PRODUCTS` entries in server.ts). -/
structure Product where
  id : Int
  name : String
  price : Int
deriving Repr, DecidableEq

/-- The static catalog, verbatim from server.ts lines 30-40. -/
def PRODUCTS : List Product := [
  ⟨1, "Mechanical RGB Keyboard", 10499⟩,
  ⟨2, "4K UltraWide Monitor", 39999⟩,
  ⟨3, "Wireless Gaming Mouse", 6499⟩,
  ⟨4, "Noise Cancelling Headphones", 19999⟩,
  ⟨5, "Gaming PC Case", 12999⟩,
  ⟨6, "Ergonomic Office Chair", 27999⟩,
  ⟨7, "Streamer Microphone", 14999⟩,
  ⟨8, "External SSD 2TB", 15999⟩,
  ⟨9, "Pendrive", 1⟩]

/-- A requested cart item `{id, quantity}` from the POST /api/orders body. -/
structure Item where
  id : Int
  quantity : Int
deriving Repr, DecidableEq

/-- The server-side total loop of POST /api/orders (server.ts lines 112-118):
for each item, find the product by id in PRODUCTS; if found add
`price * quantity`, otherwise skip the item. -/
def calculatedTotal (items : List Item) : Int :=
  items.foldl (fun acc item =>
    match PRODUCTS.find? (fun p => p.id == item.id) with
    | some product => acc + product.price * item.quantity
    | none => acc) 0

/-- Spec-side contribution of one item: `unitPrice × quantity` when the
product id exists in the Catalog, 0 otherwise. -/
def specItemContribution (item : Item) : Int :=
  match PRODUCTS.find? (fun p => p.id == item.id) with
  | some product => product.price * item.quantity
  | none => 0

/-- Spec-side total: Σ over items of their catalog contribution. -/
def specTotal (items : List Item) : Int :=
  (items.map specItemContribution).sum

/-- A row of the `orders` table (server.ts lines 17-28). `transaction_id` is
NULL (`none`) until payment verification succeeds. -/
structure Order where
  id : String
  customer_name : String
  email : String
  address : String
  total : Int
  status : String
  transaction_id : Option String
  created_at : Nat
deriving Repr, DecidableEq

/-- The `orders` table, as the list of its rows in insertion order. -/
abbrev Store := List Order

/-- Customer fields of the POST /api/orders body. -/
structure Customer where
  firstName : String
  lastName : String
  email : String
  address : String
deriving Repr, DecidableEq

/-- Order-id generation (server.ts line 120): `"EK-" + Math.floor(Math.random()*1000000)`;
the random draw is the explicit argument `n : Fin 1000000`. -/
def genOrderId (n : Fin 1000000) : String :=
  "EK-" ++ toString n.val

/-- Outcome of POST /api/orders: 200 `{orderId, total}`, or 500 when the
INSERT fails (e.g. duplicate primary key). -/
inductive CreateResult where
  | ok (orderId : String) (total : Int)
  | storeError
deriving Repr, DecidableEq

/-- The row INSERTed by POST /api/orders (server.ts lines 122-134). -/
def newOrder (items : List Item) (c : Customer) (n : Fin 1000000) (now : Nat) : Order :=
  { id := genOrderId n,
    customer_name := c.firstName ++ " " ++ c.lastName,
    email := c.email,
    address := c.address,
    total := calculatedTotal items,
    status := "pending",
    transaction_id := none,
    created_at := now }

/-- POST /api/orders (server.ts lines 108-141): compute the total, generate the
id from the random draw `n`, INSERT the pending row (the PRIMARY KEY rejects a
duplicate id, which the handler surfaces as 500 and leaves the table unchanged)
and answer `{orderId, total}`. -/
def createOrder (store : Store) (items : List Item) (c : Customer) (n : Fin 1000000)
    (now : Nat) : CreateResult × Store :=
  if store.any (fun x => x.id == genOrderId n) then
    (CreateResult.storeError, store)
  else
    (CreateResult.ok (genOrderId n) (calculatedTotal items),
      store ++ [newOrder items c n now])

/-- Mail configuration and delivery behaviour: the two environment variables
read in server.ts lines 45-46 and 51 (`none` = unset), plus whether
`transporter.sendMail` would succeed. -/
structure MailEnv where
  gmailUser : Option String
  gmailAppPassword : Option String
  deliveryOk : Bool
deriving Repr, DecidableEq

/-- JavaScript truthiness of an environment variable: `undefined` and the
empty string are falsy. -/
def envTruthy : Option String → Bool
  | none => false
  | some s => !(s == "")

/-- Observable outcome of one `sendOrderEmail` call: skipped for missing
credentials, delivered, or a delivery error caught and logged. -/
inductive EmailOutcome where
  | skipped
  | sent
  | errorLogged
deriving Repr, DecidableEq

/-- `sendOrderEmail` (server.ts lines 50-90): no-op when either credential is
absent; otherwise attempt delivery, catching and logging any failure. It never
throws in any case. -/
def sendOrderEmail (env : MailEnv) (_order : Order) (_success : Bool) : EmailOutcome :=
  if !(envTruthy env.gmailUser) || !(envTruthy env.gmailAppPassword) then
    EmailOutcome.skipped
  else if env.deliveryOk then
    EmailOutcome.sent
  else
    EmailOutcome.errorLogged

/-- Outcome of POST /api/verify-payment. -/
inductive VerifyResult where
  | success
  | invalidFormat
  | notFound
  | ruleFailed
deriving Repr, DecidableEq

/-- HTTP status code sent for each verify-payment outcome: 200 `{success:true}`,
400 "Invalid Transaction ID", 404 "Order not found", 400 demo-rule failure. -/
def statusCode : VerifyResult → Nat
  | VerifyResult.success => 200
  | VerifyResult.invalidFormat => 400
  | VerifyResult.notFound => 404
  | VerifyResult.ruleFailed => 400

/-- The regex test `/^\d{12}$/.test(transactionId)` (server.ts line 147):
exactly 12 decimal digits. -/
def isValidTransactionId (tid : String) : Bool :=
  tid.length == 12 && tid.toList.all Char.isDigit

/-- The check `transactionId.startsWith('2026')` (server.ts line 161),
expressed over the character list. -/
def startsWith2026 (tid : String) : Bool :=
  "2026".toList.isPrefixOf tid.toList

/-- `SELECT * FROM orders WHERE id = ?` followed by `.get` (server.ts
line 155): the first row whose id matches. -/
def getOrder (store : Store) (oid : String) : Option Order :=
  store.find? (fun o => o.id == oid)

/-- The row transformation of the UPDATE (server.ts lines 170-174):
`SET status = 'paid', transaction_id = ?`. -/
def updatePaid (o : Order) (tid : String) : Order :=
  { o with status := "paid", transaction_id := some tid }

/-- Effect of `UPDATE orders SET status='paid', transaction_id=? WHERE id=?`
on the table. -/
def markPaidStore (store : Store) (oid tid : String) : Store :=
  store.map (fun o => if o.id == oid then updatePaid o tid else o)

/-- `result.changes` of that UPDATE: the number of rows whose id matched. -/
def markPaidChanges (store : Store) (oid : String) : Nat :=
  store.countP (fun o => o.id == oid)

/-- POST /api/verify-payment (server.ts lines 143-189): reject a transactionId
that is not 12 digits (400); after the simulated delay look up the order (404
if absent); reject ids not starting with "2026" (400, failure email); otherwise
UPDATE the row to paid and answer `{success:true}` (success email), or 404 if
the UPDATE matched no row. Returns (result, table after, emails sent). -/
def verifyPayment (env : MailEnv) (store : Store) (oid tid : String) :
    VerifyResult × Store × List EmailOutcome :=
  if !(isValidTransactionId tid) then
    (VerifyResult.invalidFormat, store, [])
  else
    match getOrder store oid with
    | none => (VerifyResult.notFound, store, [])
    | some order =>
      if !(startsWith2026 tid) then
        (VerifyResult.ruleFailed, store, [sendOrderEmail env order false])
      else
        let store₂ := markPaidStore store oid tid
        if markPaidChanges store oid > 0 then
          (VerifyResult.success, store₂,
            [sendOrderEmail env { order with status := "paid" } true])
        else
          (VerifyResult.notFound, store₂, [])

/-- GET /api/admin/orders (server.ts lines 99-106):
`SELECT * FROM orders ORDER BY created_at DESC`. -/
def listOrders (store : Store) : List Order :=
  store.mergeSort (fun a b => decide (b.created_at ≤ a.created_at))

/-- The admin-orders handler as a state transformer: it only reads. -/
def listOrdersHandler (store : Store) : List Order × Store :=
  (listOrders store, store)

/-- A sample customer for concrete runs. -/
def demoCustomer : Customer :=
  ⟨"Ada", "Lovelace", "ada@example.com", "1 Test St"⟩

/-- A sample cart: two keyboards (product 1, unit price 10499). -/
def demoItems : List Item := [⟨1, 2⟩]

/-- A mail environment with no credentials configured. -/
def noMail : MailEnv := ⟨none, none, true⟩

/-- The zero random draw. -/
def dZero : Fin 1000000 := ⟨0, by decide⟩

/-- A concrete pending order row, as created for `demoItems` and
`demoCustomer` with random draw 0 at time 0. -/
def demoOrder : Order :=
  ⟨"EK-0", "Ada Lovelace", "ada@example.com", "1 Test St", 20998, "pending", none, 0⟩

/-- The table after creating the demo order and successfully verifying it with
transaction id "202600000001": it holds one paid row. -/
def paidStore : Store :=
  (verifyPayment noMail (createOrder [] demoItems demoCustomer dZero 0).2
    "EK-0" "202600000001").2.1

/-! ### Helper lemmas -/

/-- The foldl in the handler computes the spec-side sum, for any accumulator. -/
theorem calculatedTotal_foldl_aux (l : List Item) : ∀ a : Int,
    l.foldl (fun acc item =>
      match PRODUCTS.find? (fun p => p.id == item.id) with
      | some product => acc + product.price * item.quantity
      | none => acc) a = a + specTotal l := by
  induction l with
  | nil => intro a; simp [specTotal]
  | cons x xs ih =>
    intro a
    simp only [List.foldl_cons, specTotal, List.map_cons, List.sum_cons] at *
    cases h : PRODUCTS.find? (fun p => p.id == x.id) <;>
      simp only [h, ih, specItemContribution] <;> ring

/-- The handler's total equals the spec-side sum. -/
theorem calculatedTotal_eq_specTotal (items : List Item) :
    calculatedTotal items = specTotal items := by
  simpa [calculatedTotal] using calculatedTotal_foldl_aux items 0

/-- If the order is found, the UPDATE matches at least one row. -/
theorem markPaidChanges_pos (store : Store) (oid : String) (o : Order)
    (h : getOrder store oid = some o) : 0 < markPaidChanges store oid := by
  have h' : store.find? (fun x => x.id == oid) = some o := h
  have hp := List.find?_some h'
  rw [markPaidChanges, List.countP_pos_iff]
  exact ⟨o, List.mem_of_find?_eq_some h', by simpa using hp⟩

/-- Looking up the order after the UPDATE returns the updated row. -/
theorem getOrder_markPaidStore (store : Store) (oid tid : String) :
    ∀ o, getOrder store oid = some o →
      getOrder (markPaidStore store oid tid) oid = some (updatePaid o tid) := by
  induction store with
  | nil => intro o h; simp [getOrder] at h
  | cons a l ih =>
    intro o h
    by_cases hq : a.id = oid
    · subst hq
      rw [getOrder, List.find?_cons] at h
      simp only [beq_self_eq_true] at h
      cases h
      simp [markPaidStore, getOrder, List.find?_cons, updatePaid]
    · have hb : (a.id == oid) = false := by simp [hq]
      rw [getOrder, List.find?_cons] at h
      simp only [hb] at h
      have hrec := ih o h
      simp only [markPaidStore, List.map_cons, hb, Bool.false_eq_true, if_false]
      rw [getOrder, List.find?_cons]
      simp only [hb]
      exact hrec

/-- Branch lemma: malformed transaction id. -/
theorem verifyPayment_invalid (env : MailEnv) (store : Store) (oid tid : String)
    (h : isValidTransactionId tid = false) :
    verifyPayment env store oid tid = (VerifyResult.invalidFormat, store, []) := by
  simp [verifyPayment, h]

/-- Branch lemma: well-formed id, no such order. -/
theorem verifyPayment_noOrder (env : MailEnv) (store : Store) (oid tid : String)
    (hv : isValidTransactionId tid = true) (hg : getOrder store oid = none) :
    verifyPayment env store oid tid = (VerifyResult.notFound, store, []) := by
  simp [verifyPayment, hv, hg]

/-- Branch lemma: well-formed id, order found, demo rule fails. -/
theorem verifyPayment_ruleFailed (env : MailEnv) (store : Store) (oid tid : String)
    (o : Order) (hv : isValidTransactionId tid = true)
    (hg : getOrder store oid = some o) (hs : startsWith2026 tid = false) :
    verifyPayment env store oid tid =
      (VerifyResult.ruleFailed, store, [sendOrderEmail env o false]) := by
  simp [verifyPayment, hv, hg, hs]

/-- Branch lemma: well-formed id, order found, demo rule passes. -/
theorem verifyPayment_accept (env : MailEnv) (store : Store) (oid tid : String)
    (o : Order) (hv : isValidTransactionId tid = true)
    (hg : getOrder store oid = some o) (hs : startsWith2026 tid = true) :
    verifyPayment env store oid tid =
      (VerifyResult.success, markPaidStore store oid tid,
        [sendOrderEmail env { o with status := "paid" } true]) := by
  have hc := markPaidChanges_pos store oid o hg
  simp [verifyPayment, hv, hg, hs, hc]

/-- Neither the result nor the resulting table of verify-payment depends on
the mail environment. -/
theorem verifyPayment_env_agnostic (env env2 : MailEnv) (store : Store)
    (oid tid : String) :
    (verifyPayment env store oid tid).1 = (verifyPayment env2 store oid tid).1 ∧
    (verifyPayment env store oid tid).2.1 = (verifyPayment env2 store oid tid).2.1 := by
  cases hv : isValidTransactionId tid with
  | false =>
    rw [verifyPayment_invalid env store oid tid hv,
      verifyPayment_invalid env2 store oid tid hv]
    exact ⟨rfl, rfl⟩
  | true =>
    cases hg : getOrder store oid with
    | none =>
      rw [verifyPayment_noOrder env store oid tid hv hg,
        verifyPayment_noOrder env2 store oid tid hv hg]
      exact ⟨rfl, rfl⟩
    | some o =>
      cases hs : startsWith2026 tid with
      | false =>
        rw [verifyPayment_ruleFailed env store oid tid o hv hg hs,
          verifyPayment_ruleFailed env2 store oid tid o hv hg hs]
        exact ⟨rfl, rfl⟩
      | true =>
        rw [verifyPayment_accept env store oid tid o hv hg hs,
          verifyPayment_accept env2 store oid tid o hv hg hs]
        exact ⟨rfl, rfl⟩

/-! ### Claim theorems -/

/-- C1: for every submitted item list, the total returned by order creation
(and persisted with the order) equals the sum over items whose productId
exists in the Catalog of unitPrice × quantity; unknown productIds
contribute 0. -/
theorem create_order_total (store : Store) (items : List Item) (c : Customer)
    (n : Fin 1000000) (now : Nat)
    (h : (store.any fun x => x.id == genOrderId n) = false) :
    (createOrder store items c n now).1 =
      CreateResult.ok (genOrderId n) (specTotal items) ∧
    ∃ o, getOrder (createOrder store items c n now).2 (genOrderId n) = some o ∧
      o.total = specTotal items := by
  have hfind : store.find? (fun o => o.id == genOrderId n) = none := by
    rw [List.find?_eq_none]
    intro x hx
    exact List.any_eq_false.mp h x hx
  constructor
  · simp [createOrder, h, calculatedTotal_eq_specTotal]
  · refine ⟨newOrder items c n now, ?_, ?_⟩
    · have hstep : (createOrder store items c n now).2 =
          store ++ [newOrder items c n now] := by
        simp [createOrder, h]
      rw [hstep, getOrder, List.find?_append, hfind]
      simp [newOrder, List.find?_cons]
    · simp [newOrder, calculatedTotal_eq_specTotal]

/-- Witness for C1 at the concrete demo cart (two units of product 1,
unit price 10499). -/
theorem create_order_total_witness :
    (createOrder [] demoItems demoCustomer dZero 0).1 =
      CreateResult.ok (genOrderId dZero) (specTotal demoItems) ∧
    ∃ o, getOrder (createOrder [] demoItems demoCustomer dZero 0).2
        (genOrderId dZero) = some o ∧
      o.total = specTotal demoItems :=
  create_order_total [] demoItems demoCustomer dZero 0 (by decide)

/-- C2: for a pending order and a 12-digit transaction id starting with
"2026", verify-payment answers 200 with success, and the persisted order is
paid with the given transaction id. -/
theorem verify_accept_marks_paid (env : MailEnv) (store : Store)
    (oid tid : String) (o : Order)
    (hfmt : isValidTransactionId tid = true)
    (hpre : startsWith2026 tid = true)
    (hord : getOrder store oid = some o)
    (_hpend : o.status = "pending") :
    (verifyPayment env store oid tid).1 = VerifyResult.success ∧
    statusCode (verifyPayment env store oid tid).1 = 200 ∧
    ∃ o2, getOrder (verifyPayment env store oid tid).2.1 oid = some o2 ∧
      o2.status = "paid" ∧ o2.transaction_id = some tid := by
  rw [verifyPayment_accept env store oid tid o hfmt hord hpre]
  exact ⟨rfl, rfl, updatePaid o tid,
    getOrder_markPaidStore store oid tid o hord, rfl, rfl⟩

/-- Witness for C2: the demo order verified with "202600000001". -/
theorem verify_accept_marks_paid_witness :
    (verifyPayment noMail [demoOrder] "EK-0" "202600000001").1 =
      VerifyResult.success ∧
    statusCode (verifyPayment noMail [demoOrder] "EK-0" "202600000001").1 = 200 ∧
    ∃ o2, getOrder (verifyPayment noMail [demoOrder] "EK-0" "202600000001").2.1
        "EK-0" = some o2 ∧
      o2.status = "paid" ∧ o2.transaction_id = some "202600000001" :=
  verify_accept_marks_paid noMail [demoOrder] "EK-0" "202600000001" demoOrder
    (by decide) (by decide) (by decide) (by decide)

/-- C3: for a pending order and a 12-digit transaction id not starting with
"2026", verify-payment answers 400 and the order stays pending (the store is
untouched, so the order remains retryable). -/
theorem verify_reject_keeps_pending (env : MailEnv) (store : Store)
    (oid tid : String) (o : Order)
    (hfmt : isValidTransactionId tid = true)
    (hpre : startsWith2026 tid = false)
    (hord : getOrder store oid = some o)
    (hpend : o.status = "pending") :
    (verifyPayment env store oid tid).1 = VerifyResult.ruleFailed ∧
    statusCode (verifyPayment env store oid tid).1 = 400 ∧
    (verifyPayment env store oid tid).2.1 = store ∧
    ∃ o2, getOrder (verifyPayment env store oid tid).2.1 oid = some o2 ∧
      o2.status = "pending" := by
  rw [verifyPayment_ruleFailed env store oid tid o hfmt hord hpre]
  exact ⟨rfl, rfl, rfl, o, hord, hpend⟩

/-- Witness for C3: the demo order with the rejected id "999900000001". -/
theorem verify_reject_keeps_pending_witness :
    (verifyPayment noMail [demoOrder] "EK-0" "999900000001").1 =
      VerifyResult.ruleFailed ∧
    statusCode (verifyPayment noMail [demoOrder] "EK-0" "999900000001").1 = 400 ∧
    (verifyPayment noMail [demoOrder] "EK-0" "999900000001").2.1 = [demoOrder] ∧
    ∃ o2, getOrder (verifyPayment noMail [demoOrder] "EK-0" "999900000001").2.1
        "EK-0" = some o2 ∧ o2.status = "pending" :=
  verify_reject_keeps_pending noMail [demoOrder] "EK-0" "999900000001" demoOrder
    (by decide) (by decide) (by decide) (by decide)

/-- C5: a transactionId that is not exactly 12 decimal digits always yields
400, whatever the store contains, and the store is untouched. -/
theorem verify_malformed_400 (env : MailEnv) (store : Store) (oid tid : String)
    (h : isValidTransactionId tid = false) :
    (verifyPayment env store oid tid).1 = VerifyResult.invalidFormat ∧
    statusCode (verifyPayment env store oid tid).1 = 400 ∧
    (verifyPayment env store oid tid).2.1 = store := by
  rw [verifyPayment_invalid env store oid tid h]
  exact ⟨rfl, rfl, rfl⟩

/-- Witness for C5: an 11-digit id against a nonempty store. -/
theorem verify_malformed_400_witness :
    (verifyPayment noMail [demoOrder] "EK-0" "20260000001").1 =
      VerifyResult.invalidFormat ∧
    statusCode (verifyPayment noMail [demoOrder] "EK-0" "20260000001").1 = 400 ∧
    (verifyPayment noMail [demoOrder] "EK-0" "20260000001").2.1 = [demoOrder] :=
  verify_malformed_400 noMail [demoOrder] "EK-0" "20260000001" (by decide)

/-- C6: when the format check passes but no order with the given id exists,
verify-payment answers 404, whether or not the id satisfies the "2026"
rule. -/
theorem verify_missing_order_404 (env : MailEnv) (store : Store)
    (oid tid : String)
    (hfmt : isValidTransactionId tid = true)
    (hord : getOrder store oid = none) :
    (verifyPayment env store oid tid).1 = VerifyResult.notFound ∧
    statusCode (verifyPayment env store oid tid).1 = 404 ∧
    (verifyPayment env store oid tid).2.1 = store := by
  rw [verifyPayment_noOrder env store oid tid hfmt hord]
  exact ⟨rfl, rfl, rfl⟩

/-- Witness for C6: an unknown order id with an id satisfying the 2026 rule. -/
theorem verify_missing_order_404_witness :
    (verifyPayment noMail [demoOrder] "EK-1" "202600000001").1 =
      VerifyResult.notFound ∧
    statusCode (verifyPayment noMail [demoOrder] "EK-1" "202600000001").1 = 404 ∧
    (verifyPayment noMail [demoOrder] "EK-1" "202600000001").2.1 = [demoOrder] :=
  verify_missing_order_404 noMail [demoOrder] "EK-1" "202600000001"
    (by decide) (by decide)

/-- C7: the admin listing returns exactly the persisted orders (a permutation
of the table), sorted by creation time descending, and leaves the store
unchanged. -/
theorem list_orders_complete_sorted (store : Store) :
    (listOrdersHandler store).2 = store ∧
    (listOrdersHandler store).1.Perm store ∧
    (listOrdersHandler store).1.Pairwise
      (fun a b => b.created_at ≤ a.created_at) := by
  refine ⟨rfl, List.mergeSort_perm store _, ?_⟩
  have htrans : ∀ a b c : Order, decide (b.created_at ≤ a.created_at) = true →
      decide (c.created_at ≤ b.created_at) = true →
      decide (c.created_at ≤ a.created_at) = true := by
    intro a b c hab hbc
    simp only [decide_eq_true_eq] at *
    omega
  have htotal : ∀ a b : Order, (decide (b.created_at ≤ a.created_at) ||
      decide (a.created_at ≤ b.created_at)) = true := by
    intro a b
    simp only [Bool.or_eq_true, decide_eq_true_eq]
    exact Nat.le_total b.created_at a.created_at
  have h := @List.sorted_mergeSort Order
    (fun a b : Order => decide (b.created_at ≤ a.created_at)) htrans htotal store
  exact h.imp (fun hab => by simpa using hab)

/-- C10: whenever verify-payment rejects (malformed id, missing order, or
failed demo rule), the orders table is left unchanged; only the accepted path
writes. -/
theorem verify_reject_no_write (env : MailEnv) (store : Store) (oid tid : String)
    (h : (verifyPayment env store oid tid).1 ≠ VerifyResult.success) :
    (verifyPayment env store oid tid).2.1 = store := by
  cases hv : isValidTransactionId tid with
  | false => rw [verifyPayment_invalid env store oid tid hv]
  | true =>
    cases hg : getOrder store oid with
    | none => rw [verifyPayment_noOrder env store oid tid hv hg]
    | some o =>
      cases hs : startsWith2026 tid with
      | false => rw [verifyPayment_ruleFailed env store oid tid o hv hg hs]
      | true =>
        exfalso
        apply h
        rw [verifyPayment_accept env store oid tid o hv hg hs]

/-- Witness for C10: a rejected verification against a nonempty store. -/
theorem verify_reject_no_write_witness :
    (verifyPayment noMail [demoOrder] "EK-0" "999900000001").2.1 = [demoOrder] :=
  verify_reject_no_write noMail [demoOrder] "EK-0" "999900000001" (by decide)

/-- C4 counterexample: the UPDATE has no status guard, so a second accepted
verification of an already-paid order overwrites its transaction id. Starting
from the empty table: create the demo order, verify it with "202600000001"
(now paid), then verify again with "202600000002" — the call succeeds and the
persisted transaction id changes. -/
theorem paid_transaction_id_overwritten :
    (getOrder paidStore "EK-0").map Order.status = some "paid" ∧
    (getOrder paidStore "EK-0").map Order.transaction_id =
      some (some "202600000001") ∧
    (verifyPayment noMail paidStore "EK-0" "202600000002").1 =
      VerifyResult.success ∧
    (getOrder (verifyPayment noMail paidStore "EK-0" "202600000002").2.1
        "EK-0").map Order.transaction_id = some (some "202600000002") := by
  decide

/-- C4 amended: status starts at pending and only ever moves to paid, never
reverting, and any row changed by verify-payment became paid with the given
(non-empty, 12-digit) transaction id — but the transaction id is not set only
once: an accepted re-verification of a paid order overwrites it. -/
theorem order_status_monotone :
    (∀ store items c n now o2, o2 ∈ (createOrder store items c n now).2 →
      o2 ∈ store ∨ (o2.status = "pending" ∧ o2.transaction_id = none)) ∧
    (∀ env store oid tid o2, o2 ∈ (verifyPayment env store oid tid).2.1 →
      ∃ o ∈ store, o.id = o2.id ∧
        (o2 = o ∨ (o2.status = "paid" ∧ o2.transaction_id = some tid ∧
          isValidTransactionId tid = true)) ∧
        (o.status = "paid" → o2.status = "paid")) := by
  constructor
  · intro store items c n now o2 h2
    by_cases hd : (store.any fun x => x.id == genOrderId n) = true
    · simp only [createOrder, hd, if_true] at h2
      exact Or.inl h2
    · have hdf : (store.any fun x => x.id == genOrderId n) = false :=
        eq_false_of_ne_true hd
      simp only [createOrder, hdf, Bool.false_eq_true, if_false] at h2
      rcases List.mem_append.mp h2 with hin | hnew
      · exact Or.inl hin
      · rcases List.mem_singleton.mp hnew with rfl
        exact Or.inr ⟨rfl, rfl⟩
  · intro env store oid tid o2 h2
    cases hv : isValidTransactionId tid with
    | false =>
      rw [verifyPayment_invalid env store oid tid hv] at h2
      exact ⟨o2, h2, rfl, Or.inl rfl, fun hp => hp⟩
    | true =>
      cases hg : getOrder store oid with
      | none =>
        rw [verifyPayment_noOrder env store oid tid hv hg] at h2
        exact ⟨o2, h2, rfl, Or.inl rfl, fun hp => hp⟩
      | some o =>
        cases hs : startsWith2026 tid with
        | false =>
          rw [verifyPayment_ruleFailed env store oid tid o hv hg hs] at h2
          exact ⟨o2, h2, rfl, Or.inl rfl, fun hp => hp⟩
        | true =>
          rw [verifyPayment_accept env store oid tid o hv hg hs] at h2
          rcases List.mem_map.mp h2 with ⟨a, ha, hfa⟩
          by_cases hq : a.id = oid
          · have hb : (a.id == oid) = true := beq_iff_eq.mpr hq
            rw [if_pos hb] at hfa
            subst hfa
            exact ⟨a, ha, rfl, Or.inr ⟨rfl, rfl, rfl⟩, fun _ => rfl⟩
          · have hb : ¬((a.id == oid) = true) := by simp [hq]
            rw [if_neg hb] at hfa
            exact ⟨a, ha, by rw [hfa], Or.inl hfa.symm, fun hp => by
              rw [← hfa]; exact hp⟩

/-- Witness for the amended C4: the row written by an accepted verification of
the demo order is paid, carries the given transaction id, and descends from a
row of the original table with the same id. -/
theorem order_status_monotone_witness :
    ∃ o ∈ [demoOrder], o.id = (updatePaid demoOrder "202600000001").id ∧
      (updatePaid demoOrder "202600000001" = o ∨
        ((updatePaid demoOrder "202600000001").status = "paid" ∧
          (updatePaid demoOrder "202600000001").transaction_id =
            some "202600000001" ∧
          isValidTransactionId "202600000001" = true)) ∧
      (o.status = "paid" → (updatePaid demoOrder "202600000001").status = "paid") :=
  order_status_monotone.2 noMail [demoOrder] "EK-0" "202600000001"
    (updatePaid demoOrder "202600000001") (by decide)

/-- C8 counterexample: the generated id depends only on the random draw, so a
repeated draw repeats the id. With draw 0 twice, the first creation persists
"EK-0"; the second generates the same "EK-0" and its INSERT fails on the
primary key — answered as 500 with the table unchanged. Ids generated at
creation are therefore not unique across creations. -/
theorem order_id_collision :
    (createOrder [] demoItems demoCustomer dZero 0).1 =
      CreateResult.ok "EK-0" 20998 ∧
    (createOrder (createOrder [] demoItems demoCustomer dZero 0).2
        demoItems demoCustomer dZero 1).1 = CreateResult.storeError ∧
    (createOrder (createOrder [] demoItems demoCustomer dZero 0).2
        demoItems demoCustomer dZero 1).2 =
      (createOrder [] demoItems demoCustomer dZero 0).2 := by
  decide

/-- C8 amended: every generated order id has the form "EK-" followed by an
integer between 0 and 999999, and the ids persisted in the table stay
pairwise distinct (a colliding INSERT is rejected) — but distinct creations
can generate the same id. -/
theorem order_id_format_and_persisted_unique :
    (∀ n : Fin 1000000, genOrderId n = "EK-" ++ toString n.val ∧
      n.val ≤ 999999) ∧
    (∀ store items c n now, (store.map Order.id).Nodup →
      (((createOrder store items c n now).2).map Order.id).Nodup) := by
  constructor
  · intro n
    exact ⟨rfl, Nat.lt_succ_iff.mp n.isLt⟩
  · intro store items c n now h
    by_cases hd : (store.any fun x => x.id == genOrderId n) = true
    · simp only [createOrder, hd, if_true]
      exact h
    · have hdf : (store.any fun x => x.id == genOrderId n) = false :=
        eq_false_of_ne_true hd
      simp only [createOrder, hdf, Bool.false_eq_true, if_false, List.map_append,
        List.map_cons, List.map_nil]
      rw [List.nodup_append]
      refine ⟨h, List.nodup_singleton _, ?_⟩
      rw [List.disjoint_singleton]
      intro hmem
      rcases List.mem_map.mp hmem with ⟨x, hx, hxid⟩
      have hfalse := List.any_eq_false.mp hdf x hx
      simp only [newOrder] at hxid
      exact hfalse (beq_iff_eq.mpr hxid)

/-- Witness for the amended C8: creating the demo order in an empty table
yields a table with pairwise-distinct ids. -/
theorem order_id_format_witness :
    (((createOrder [] demoItems demoCustomer dZero 0).2).map Order.id).Nodup :=
  order_id_format_and_persisted_unique.2 [] demoItems demoCustomer dZero 0
    (by simp)

/-- C9: email is best-effort. With either Gmail credential missing (unset or
empty), sendOrderEmail is a no-op; and neither the verify-payment result nor
the resulting table depends on the mail environment, so the HTTP response is
identical whether delivery succeeds, fails (caught and logged), or is
skipped. Order creation never calls the notifier at all. -/
theorem email_best_effort :
    (∀ env o s, envTruthy env.gmailUser = false ∨
      envTruthy env.gmailAppPassword = false →
      sendOrderEmail env o s = EmailOutcome.skipped) ∧
    (∀ env env2 store oid tid,
      (verifyPayment env store oid tid).1 = (verifyPayment env2 store oid tid).1 ∧
      (verifyPayment env store oid tid).2.1 =
        (verifyPayment env2 store oid tid).2.1) := by
  constructor
  · intro env o s h
    rcases h with h | h <;> simp [sendOrderEmail, h]
  · intro env env2 store oid tid
    exact verifyPayment_env_agnostic env env2 store oid tid

/-- Witness for C9: with no credentials configured the send is skipped. -/
theorem email_best_effort_witness :
    sendOrderEmail noMail demoOrder true = EmailOutcome.skipped :=
  email_best_effort.1 noMail demoOrder true (Or.inl rfl)

end EKart
